import Mathlib

/-!
# Verification of the DocuMind document-archive frontend

Shallow embedding of the client-side document store of
`frontend/src/routes/+page.svelte`, the upload form of
`frontend/src/lib/components/UploadForm.svelte`, the filter input of
`frontend/src/lib/components/Filters.svelte`, and (modelled from the
backend README, the Python source being absent) the path validation of
the `/api/analyze-file` endpoint.

JavaScript strings are modelled by `String`; `undefined`-able fields by
`Option`; JS truthiness tests on strings (`if (filters.search)`) by
comparison with `""`.  `Date.now()`, `Math.random()` and
`new Date().toISOString()` are nondeterministic environment reads, so the
operations that consume them take their values as explicit parameters.
-/

namespace Documind

/-! ## JS string primitives

`jsIncludes hay needle` models JavaScript `hay.includes(needle)`
(substring containment; the empty needle is always contained).
`jsToLower` / `jsTrim` model `toLowerCase()` / `trim()` character-wise
over the string's character list (they agree with the JS functions on
the ASCII data handled here).
-/

/-- `listStarts needle hay` : `needle` is a leading segment of `hay`. -/
def listStarts : List Char → List Char → Bool
  | [], _ => true
  | _ :: _, [] => false
  | n :: ns, h :: hs => n == h && listStarts ns hs

/-- `occursIn needle hay` : `needle` occurs contiguously inside `hay`. -/
def occursIn (needle : List Char) : List Char → Bool
  | [] => listStarts needle []
  | h :: hs => listStarts needle (h :: hs) || occursIn needle hs

/-- JavaScript `hay.includes(needle)`. -/
def jsIncludes (hay needle : String) : Bool :=
  occursIn needle.data hay.data

/-- JavaScript `s.toLowerCase()`. -/
def jsToLower (s : String) : String :=
  ⟨s.data.map Char.toLower⟩

/-- JavaScript `s.trim()`: strip leading and trailing whitespace. -/
def jsTrim (s : String) : String :=
  ⟨((s.data.dropWhile Char.isWhitespace).reverse.dropWhile Char.isWhitespace).reverse⟩

/-! ## Data model (`+page.svelte`, TYPE DEFINITIONS) -/

/-- The `extracted_data` object returned by the backend; every field is
optional (`tipo_documento?`, `data_documento?`, `soggetti_coinvolti?`,
`descrizione_breve?`).  The open-ended `importi` map plays no role in
any claim and is omitted. -/
structure ExtractedData where
  tipo_documento : Option String
  data_documento : Option String
  soggetti_coinvolti : Option (List String)
  descrizione_breve : Option String
deriving Repr, DecidableEq

/-- `AnalyzedData`: raw analysis result `{filename, extracted_data}`. -/
structure AnalyzedData where
  filename : String
  extracted_data : ExtractedData
deriving Repr, DecidableEq

/-- `Doc`: the client-side document record. -/
structure Doc where
  id : String
  name : String
  uploadedAt : String
  extracted_data : ExtractedData
deriving Repr, DecidableEq

/-- `FilterValues`: the current filter query `{search, type}`. -/
structure FilterValues where
  search : String
  type : String
deriving Repr, DecidableEq

/-! ## Filtering (`+page.svelte`, `applyFilters`) -/

/-- The `searchableText` built in `applyFilters`:
`[doc.name, doc.extracted_data.tipo_documento,
  ...(doc.extracted_data.soggetti_coinvolti || []),
  doc.extracted_data.descrizione_breve].join(' ').toLowerCase()`.
`Array.prototype.join` renders an `undefined` element as the empty
string but still inserts the separator around it. -/
def searchableText (doc : Doc) : String :=
  jsToLower (String.intercalate " "
    ([doc.name, doc.extracted_data.tipo_documento.getD ""]
      ++ doc.extracted_data.soggetti_coinvolti.getD []
      ++ [doc.extracted_data.descrizione_breve.getD ""]))

/-- The filter callback of `applyFilters`, with its two early returns:
search mismatch, then type mismatch, else `true`. -/
def docPasses (filters : FilterValues) (doc : Doc) : Bool :=
  if filters.search != "" && !(jsIncludes (searchableText doc) (jsToLower filters.search)) then
    false
  else if filters.type != ""
      && jsToLower (doc.extracted_data.tipo_documento.getD "") != jsToLower filters.type then
    false
  else
    true

/-- `applyFilters` restricted to its pure core: `documents.filter(...)`. -/
def applyFilters (documents : List Doc) (filters : FilterValues) : List Doc :=
  documents.filter (docPasses filters)

/-- The search predicate of `applyFilters`, named separately: pass iff
the search term is empty or the searchable text contains it (lowercased). -/
def searchPred (filters : FilterValues) (doc : Doc) : Bool :=
  filters.search == "" || jsIncludes (searchableText doc) (jsToLower filters.search)

/-- The type predicate of `applyFilters`, named separately: pass iff the
type term is empty or `(tipo_documento || '')` equals it case-insensitively. -/
def typePred (filters : FilterValues) (doc : Doc) : Bool :=
  filters.type == ""
    || jsToLower (doc.extracted_data.tipo_documento.getD "") == jsToLower filters.type

/-- The searchable string the spec describes: concatenation of name,
`tipo_documento`, each `soggetti_coinvolti` entry and `descrizione_breve`,
*skipping* any absent field, lowercased (space-separated, as the view
joins with a space). -/
def specSearchableText (doc : Doc) : String :=
  jsToLower (String.intercalate " "
    ([doc.name] ++ doc.extracted_data.tipo_documento.toList
      ++ doc.extracted_data.soggetti_coinvolti.getD []
      ++ doc.extracted_data.descrizione_breve.toList))

/-! ## Store state and operations (`+page.svelte`) -/

/-- The page's mutable state: `documents`, `filtered`, `filters`. -/
structure PageState where
  documents : List Doc
  filtered : List Doc
  filters : FilterValues
deriving Repr, DecidableEq

/-- The document id `` `${Date.now()}-${Math.random()}` ``; `nowMs` is the
value of `Date.now()` and `rand` the decimal rendering of `Math.random()`. -/
def genId (nowMs : Nat) (rand : String) : String :=
  toString nowMs ++ "-" ++ rand

/-- `addDocument(analyzedDoc)`: build `newDoc`, prepend it, re-apply the
filters.  `nowMs`/`rand`/`nowIso` are the environment reads `Date.now()`,
`Math.random()` and `new Date().toISOString()`. -/
def addDocument (s : PageState) (analyzedDoc : AnalyzedData)
    (nowMs : Nat) (nowIso rand : String) : PageState :=
  let newDoc : Doc :=
    { id := genId nowMs rand
      name := analyzedDoc.filename
      uploadedAt := nowIso
      extracted_data := analyzedDoc.extracted_data }
  let documents := newDoc :: s.documents
  { documents := documents
    filtered := applyFilters documents s.filters
    filters := s.filters }

/-- `deleteDocument(id)`: `documents.filter((d) => d.id !== id)`, then
re-apply the filters. -/
def deleteDocument (s : PageState) (id : String) : PageState :=
  let documents := s.documents.filter (fun d => d.id != id)
  { documents := documents
    filtered := applyFilters documents s.filters
    filters := s.filters }

/-- `onFilter(newFilters)` as fed by `Filters.svelte`, whose
`applyFilters` trims both fields before invoking the callback:
replace the query and recompute the view. -/
def setFilter (s : PageState) (search type : String) : PageState :=
  let f : FilterValues := { search := jsTrim search, type := jsTrim type }
  { documents := s.documents
    filtered := applyFilters s.documents f
    filters := f }

/-! ## Upload form (`UploadForm.svelte`) -/

/-- A selected file as seen by the size check: its name and `size` in bytes. -/
structure FileMeta where
  name : String
  size : Nat
deriving Repr, DecidableEq

/-- The upload form's state: the accepted `file` and the `error` banner. -/
structure FormState where
  file : Option FileMeta
  error : String
deriving Repr, DecidableEq

/-- The message `` `File troppo grande. Massimo ${maxFileSize}MB consentiti.` ``. -/
def sizeErrorMsg (maxFileSize : Nat) : String :=
  "File troppo grande. Massimo " ++ toString maxFileSize ++ "MB consentiti."

/-- `onFileChange`: clear the error, and accept the selected file only if
`selectedFile.size > maxFileSize * 1024 * 1024` does not hold. -/
def onFileChange (maxFileSize : Nat) (selected : Option FileMeta) : FormState :=
  match selected with
  | none => { file := none, error := "" }
  | some f =>
    if f.size > maxFileSize * 1024 * 1024 then
      { file := none, error := sizeErrorMsg maxFileSize }
    else
      { file := some f, error := "" }

/-- What a form submission does before any network activity: with no
accepted file `onSubmit` sets an error and returns; otherwise it issues
the `fetch` carrying the file. -/
inductive SubmitAction where
  | noRequest (errMsg : String)
  | request (f : FileMeta)
deriving Repr, DecidableEq

/-- The guard at the top of `onSubmit`: `if (!file) { error = ...; return; }`. -/
def onSubmitAction (st : FormState) : SubmitAction :=
  match st.file with
  | none => SubmitAction.noRequest "Seleziona un file da caricare"
  | some f => SubmitAction.request f

/-! ## Response handling (`UploadForm.svelte`, `onSubmit` after `fetch`) -/

/-- A JSON value successfully parsed from the response body, as the two
reads the code performs see it: its `.error` property (absent ⇒ `none`)
and the whole value cast to `AnalyzedDocument` (the cast is unchecked). -/
structure ParsedJson where
  errorField : Option String
  asAnalyzed : AnalyzedData
deriving Repr

/-- The `fetch` response: `ok`, `status`, and the outcome of
`response.json()` — `Except.error m` when the body is unparseable, with
`m` the parse error's message. -/
structure AnalyzeResponse where
  ok : Bool
  status : Nat
  parse : Except String ParsedJson
deriving Repr

/-- The template `` `Errore HTTP ${response.status}` ``. -/
def httpErrorMsg (status : Nat) : String :=
  "Errore HTTP " ++ toString status

/-- What `onSubmit` does with the response: either a failure whose message
lands in the error banner, or a success passed to `onAdd`.
On `!response.ok`, `response.json().catch(() => ({error: defaultMsg}))`
then `throw new Error(errorData.error || httpMsg)` — an empty-string
`error` field is falsy, hence the fallback.  On `response.ok`, a body
parse failure throws and the catch surfaces `err.message`. -/
def onSubmitOutcome (resp : AnalyzeResponse) : Except String AnalyzedData :=
  if resp.ok then
    match resp.parse with
    | Except.error m => Except.error m
    | Except.ok v => Except.ok v.asAnalyzed
  else
    match resp.parse with
    | Except.error _ => Except.error "Errore di comunicazione con il server"
    | Except.ok v =>
      match v.errorField with
      | some e => if e = "" then Except.error (httpErrorMsg resp.status) else Except.error e
      | none => Except.error (httpErrorMsg resp.status)

/-- One whole upload round against the store: on failure the page state is
untouched and the message is surfaced; on success `onAdd` → `addDocument`
runs.  Returns the new state and the error banner text. -/
def processUpload (s : PageState) (resp : AnalyzeResponse)
    (nowMs : Nat) (nowIso rand : String) : PageState × String :=
  match onSubmitOutcome resp with
  | Except.error m => (s, m)
  | Except.ok a => (addDocument s a nowMs nowIso rand, "")

/-! ## Backend path validation (`/api/analyze-file`)

The Python source `app.py` is not part of the repository snapshot; only
`backend/README.md` documents it.  The definitions below are therefore
modelled from the spec.
-/

/-- Modelled from the spec: a path-based `ExtractionRequest` — `app.py` is
missing from the snapshot.  A request is an absolute flag plus the path's
segments (the spec rejects absolute paths outright). -/
structure PathReq where
  absolute : Bool
  segments : List String
deriving Repr, DecidableEq

/-- Modelled from the spec: canonicalization of a relative path.  `"."`
segments vanish, `".."` pops the previous segment, and a `".."` with
nothing left to pop escapes the root: `none`. -/
def normSegments (acc : List String) : List String → Option (List String)
  | [] => some acc.reverse
  | "." :: rest => normSegments acc rest
  | ".." :: rest =>
    match acc with
    | [] => none
    | _ :: acc' => normSegments acc' rest
  | s :: rest => normSegments (s :: acc) rest

/-- Modelled from the spec: resolve a request under the configured root;
`none` when the path is absolute or escapes the root. -/
def resolveUnderRoot (root : List String) (p : PathReq) : Option (List String) :=
  if p.absolute then none
  else
    match normSegments [] p.segments with
    | none => none
    | some rel => some (root ++ rel)

/-- The error taxonomy of the analysis service (the part these claims use). -/
inductive AnalyzeError where
  | invalidInput
deriving Repr, DecidableEq

/-- A filesystem effect of the service: reading the file at a resolved path. -/
inductive FsEffect where
  | read (path : List String)
deriving Repr, DecidableEq

/-- Modelled from the spec: the validation stage of
`analyze({path})` — reject with `InvalidInput` before any file I/O when
the path does not resolve inside the root, else read the resolved file.
The returned list records the filesystem reads performed. -/
def analyzeFile (root : List String) (p : PathReq) :
    Except AnalyzeError (List String) × List FsEffect :=
  match resolveUnderRoot root p with
  | none => (Except.error AnalyzeError.invalidInput, [])
  | some full => (Except.ok full, [FsEffect.read full])

/-! ## Concrete data for counterexamples and witnesses -/

/-- A document with absent `tipo_documento` and `soggetti_coinvolti`:
its joined searchable text is `"a  b"` (double space), while the spec's
absent-fields-skipped string is `"a b"`. -/
def gapDoc : Doc :=
  { id := "d1", name := "a", uploadedAt := "2026-01-01",
    extracted_data :=
      { tipo_documento := none, data_documento := none,
        soggetti_coinvolti := none, descrizione_breve := some "b" } }

/-- A pure-search query whose term straddles the gap left by the absent
fields. -/
def gapQuery : FilterValues := { search := "a b", type := "" }

/-- A concrete document already in the store for the witnesses below. -/
def exDoc : Doc :=
  { id := "7-0.3", name := "Contract B", uploadedAt := "2026-01-02",
    extracted_data :=
      { tipo_documento := some "Contratto", data_documento := none,
        soggetti_coinvolti := some ["ACME"], descrizione_breve := some "contratto di servizio" } }

/-- A concrete page state holding `exDoc`, with empty filters (so its
filtered view is consistent with `applyFilters`). -/
def exState : PageState :=
  { documents := [exDoc], filtered := [exDoc], filters := { search := "", type := "" } }

/-- A concrete successful analysis result for the witnesses below. -/
def exAnalyzed : AnalyzedData :=
  { filename := "Invoice A",
    extracted_data :=
      { tipo_documento := some "Fattura", data_documento := some "2026-01-03",
        soggetti_coinvolti := none, descrizione_breve := some "fattura per consulenza" } }

/-! ## Helper lemmas -/

theorem docPasses_eq_and (filters : FilterValues) (doc : Doc) :
    docPasses filters doc = (searchPred filters doc && typePred filters doc) := by
  unfold docPasses searchPred typePred
  by_cases hs : filters.search = "" <;>
    by_cases ht : filters.type = "" <;>
      by_cases hj : jsIncludes (searchableText doc) (jsToLower filters.search) = true <;>
        by_cases htp :
            jsToLower (doc.extracted_data.tipo_documento.getD "") = jsToLower filters.type <;>
          simp [hs, ht, hj, htp]

theorem jsToLower_ne_empty (s : String) (h : s ≠ "") : jsToLower s ≠ "" := by
  intro he
  apply h
  have h2 : (jsToLower s).data = [] := congrArg String.data he
  rw [jsToLower] at h2
  simp only [List.map_eq_nil_iff] at h2
  exact String.ext (by simp [h2])

theorem genId_inj_rand (t : Nat) (r₁ r₂ : String) (h : genId t r₁ = genId t r₂) :
    r₁ = r₂ := by
  unfold genId at h
  have h2 := congrArg String.data h
  simp only [String.data_append, List.append_assoc, List.append_cancel_left_eq] at h2
  exact String.ext h2

/-! ## Claims about filtering -/

/-- Claim C3: the filtered view is exactly the documents passing both the
search and the type predicate (logical AND), is a sublist of the
collection (hence a subset, in the same relative order). -/
theorem filtered_view_and_sublist (D : List Doc) (q : FilterValues) :
    applyFilters D q = D.filter (fun d => searchPred q d && typePred q d)
    ∧ List.Sublist (applyFilters D q) D
    ∧ ∀ d : Doc, d ∈ applyFilters D q ↔ (d ∈ D ∧ searchPred q d = true ∧ typePred q d = true) := by
  refine ⟨?_, ?_, ?_⟩
  · unfold applyFilters
    exact List.filter_congr (fun d _ => docPasses_eq_and q d)
  · exact List.filter_sublist D
  · intro d
    unfold applyFilters
    simp [List.mem_filter, docPasses_eq_and]

/-- Witness for C3 at a concrete list and query. -/
theorem filtered_view_and_sublist_witness :
    applyFilters [exDoc] { search := "", type := "fattura" }
      = List.filter
          (fun d => searchPred { search := "", type := "fattura" } d
            && typePred { search := "", type := "fattura" } d) [exDoc]
    ∧ List.Sublist (applyFilters [exDoc] { search := "", type := "fattura" }) [exDoc] :=
  ⟨(filtered_view_and_sublist [exDoc] { search := "", type := "fattura" }).1,
   (filtered_view_and_sublist [exDoc] { search := "", type := "fattura" }).2.1⟩

/-- Claim C2: for a (trimmed, per the `FilterQuery` invariant) query, the
type predicate passes iff the type term is empty or `tipo_documento`
equals it case-insensitively; a document with absent `tipo_documento`
never passes a non-empty type filter. -/
theorem type_filter_exact_match (doc : Doc) (q : FilterValues) (ht : jsTrim q.type = q.type) :
    (typePred q doc = true ↔
      (q.type = "" ∨ jsToLower (doc.extracted_data.tipo_documento.getD "")
        = jsToLower (jsTrim q.type)))
    ∧ (q.type ≠ "" → doc.extracted_data.tipo_documento = none → typePred q doc = false) := by
  constructor
  · rw [ht]
    simp [typePred]
  · intro hne hnone
    simp only [typePred, hnone, Option.getD_none]
    have hl : jsToLower q.type ≠ "" := jsToLower_ne_empty q.type hne
    have hempty : jsToLower "" = "" := rfl
    simp [hne, hempty]
    exact fun h => hl h.symm

/-- Witness for C2 at a concrete document and query. -/
theorem type_filter_exact_match_witness :
    (typePred { search := "", type := "Fattura" }
        { id := "1", name := "Invoice A", uploadedAt := "",
          extracted_data :=
            { tipo_documento := some "fattura", data_documento := none,
              soggetti_coinvolti := none, descrizione_breve := none } } = true ↔
      (("Fattura" : String) = ""
        ∨ jsToLower ((some "fattura" : Option String).getD "") = jsToLower (jsTrim "Fattura"))) :=
  (type_filter_exact_match _ _ (by decide)).1

/-- Claim C1, counterexample: for `gapDoc` and `gapQuery` the spec's
absent-fields-skipped searchable string contains the (trimmed, lowercased)
search term, yet the code's filtered view excludes the document — because
`join(' ')` renders the two absent fields as empty strings between
separators, producing `"a  b"`, which does not contain `"a b"`. -/
theorem search_skips_absent_counterexample :
    jsIncludes (specSearchableText gapDoc) (jsToLower (jsTrim gapQuery.search)) = true
    ∧ gapQuery.search ≠ ""
    ∧ applyFilters [gapDoc] gapQuery = [] := by
  refine ⟨by decide, by decide, ?_⟩
  decide

/-- Claim C1, amended: with an empty type term and a trimmed search term,
the filtered view includes a document iff the search term is empty or the
lowercase string obtained by `join(' ')` over name, `tipo_documento`,
the `soggetti_coinvolti` entries and `descrizione_breve` — absent fields
contributing an *empty segment*, not skipped — contains the lowercase
search term. -/
theorem search_filter_amended (D : List Doc) (q : FilterValues) (d : Doc)
    (htype : q.type = "") (hs : jsTrim q.search = q.search) :
    d ∈ applyFilters D q ↔
      d ∈ D ∧ (q.search = ""
        ∨ jsIncludes (searchableText d) (jsToLower (jsTrim q.search)) = true) := by
  rw [hs]
  have hd : docPasses q d = (q.search == "" || jsIncludes (searchableText d) (jsToLower q.search)) := by
    rw [docPasses_eq_and]
    have htp : typePred q d = true := by simp [typePred, htype]
    rw [htp, Bool.and_true]
    rfl
  simp [applyFilters, List.mem_filter, hd]

/-- Witness for the amended C1 at a concrete document, list and query. -/
theorem search_filter_amended_witness :
    gapDoc ∈ applyFilters [gapDoc] { search := "a", type := "" } ↔
      gapDoc ∈ [gapDoc] ∧ (("a" : String) = ""
        ∨ jsIncludes (searchableText gapDoc) (jsToLower (jsTrim "a")) = true) :=
  search_filter_amended [gapDoc] { search := "a", type := "" } gapDoc rfl (by decide)

/-! ## Claims about the store operations -/

theorem PageState.eq_of_fields (s₁ s₂ : PageState)
    (h1 : s₁.documents = s₂.documents) (h2 : s₁.filtered = s₂.filtered)
    (h3 : s₁.filters = s₂.filters) : s₁ = s₂ := by
  cases s₁; cases s₂; simp_all

/-- Claim C4: `addDocument` synthesizes the new document from the
extraction, the clock and the random draw, prepends it (most-recent
first), keeps every previously inserted document unchanged, keeps the
query, and recomputes the filtered view; ids from distinct random draws
at the same millisecond are distinct. -/
theorem insert_prepends (s : PageState) (a : AnalyzedData) (t : Nat) (iso rand : String) :
    (addDocument s a t iso rand).documents
      = { id := genId t rand, name := a.filename, uploadedAt := iso,
          extracted_data := a.extracted_data } :: s.documents
    ∧ (addDocument s a t iso rand).documents.tail = s.documents
    ∧ (addDocument s a t iso rand).filters = s.filters
    ∧ (addDocument s a t iso rand).filtered
        = applyFilters (addDocument s a t iso rand).documents s.filters
    ∧ ∀ rand', rand' ≠ rand → genId t rand' ≠ genId t rand := by
  refine ⟨rfl, rfl, rfl, rfl, ?_⟩
  intro r' hne hgen
  exact hne (genId_inj_rand t r' rand hgen)

/-- Witness for C4 at a concrete state, extraction, clock and random draw. -/
theorem insert_prepends_witness :
    (addDocument exState exAnalyzed 5 "2026-01-03" "0.5").documents
      = { id := genId 5 "0.5", name := exAnalyzed.filename, uploadedAt := "2026-01-03",
          extracted_data := exAnalyzed.extracted_data } :: exState.documents
    ∧ genId 5 "0.25" ≠ genId 5 "0.5" :=
  ⟨(insert_prepends exState exAnalyzed 5 "2026-01-03" "0.5").1,
   (insert_prepends exState exAnalyzed 5 "2026-01-03" "0.5").2.2.2.2 "0.25" (by decide)⟩

/-- Claim C5: inserting and then removing the id generated by that insert
restores the collection (same documents, same order) and — when the
filtered view was consistent — the whole state; ids built from distinct
random draws are distinct even at the same `Date.now()` millisecond.
The freshness hypothesis (the generated id is not already present) is
exactly what distinct draws across the collection's lifetime provide. -/
theorem insert_remove_roundtrip (s : PageState) (a : AnalyzedData) (t : Nat)
    (iso rand : String)
    (hfresh : ∀ d ∈ s.documents, d.id ≠ genId t rand) :
    (deleteDocument (addDocument s a t iso rand) (genId t rand)).documents = s.documents
    ∧ (deleteDocument (addDocument s a t iso rand) (genId t rand)).filters = s.filters
    ∧ (s.filtered = applyFilters s.documents s.filters →
        deleteDocument (addDocument s a t iso rand) (genId t rand) = s)
    ∧ (∀ r₁ r₂ : String, r₁ ≠ r₂ → genId t r₁ ≠ genId t r₂) := by
  have hdocs : (deleteDocument (addDocument s a t iso rand) (genId t rand)).documents
      = s.documents := by
    have hunfold : (deleteDocument (addDocument s a t iso rand) (genId t rand)).documents
        = List.filter (fun d => d.id != genId t rand)
            ({ id := genId t rand, name := a.filename, uploadedAt := iso,
               extracted_data := a.extracted_data } :: s.documents) := rfl
    rw [hunfold, List.filter_cons]
    simp only [bne_self_eq_false, Bool.false_eq_true, if_false]
    exact List.filter_eq_self.mpr (fun d hd => by simpa [bne_iff_ne] using hfresh d hd)
  refine ⟨hdocs, rfl, ?_, ?_⟩
  · intro hinv
    refine PageState.eq_of_fields _ _ hdocs ?_ rfl
    calc (deleteDocument (addDocument s a t iso rand) (genId t rand)).filtered
        = applyFilters
            (deleteDocument (addDocument s a t iso rand) (genId t rand)).documents
            s.filters := rfl
      _ = applyFilters s.documents s.filters := by rw [hdocs]
      _ = s.filtered := hinv.symm
  · intro r₁ r₂ hne hgen
    exact hne (genId_inj_rand t r₁ r₂ hgen)

/-- Witness for C5 at a concrete state, extraction, clock and random draws. -/
theorem insert_remove_roundtrip_witness :
    (deleteDocument (addDocument exState exAnalyzed 9 "2026-01-04" "0.75")
        (genId 9 "0.75")).documents = exState.documents
    ∧ genId 9 "0.1" ≠ genId 9 "0.2" :=
  ⟨(insert_remove_roundtrip exState exAnalyzed 9 "2026-01-04" "0.75" (by decide)).1,
   (insert_remove_roundtrip exState exAnalyzed 9 "2026-01-04" "0.75"
      (by decide)).2.2.2 "0.1" "0.2" (by decide)⟩

/-- Claim C8: `deleteDocument` removes exactly the documents whose id
equals the argument, keeps the rest in order (sublist), recomputes the
filtered view, and on an absent id is a no-op: the collection — and,
when the view was consistent, the whole state — is unchanged, and being a
total function it raises no error. -/
theorem remove_by_id (s : PageState) (id : String) :
    (deleteDocument s id).documents = s.documents.filter (fun d => d.id != id)
    ∧ (∀ d ∈ (deleteDocument s id).documents, d.id ≠ id)
    ∧ List.Sublist (deleteDocument s id).documents s.documents
    ∧ (∀ d ∈ s.documents, d.id ≠ id → d ∈ (deleteDocument s id).documents)
    ∧ (deleteDocument s id).filtered
        = applyFilters (deleteDocument s id).documents s.filters
    ∧ ((∀ d ∈ s.documents, d.id ≠ id) →
        (deleteDocument s id).documents = s.documents
        ∧ (s.filtered = applyFilters s.documents s.filters → deleteDocument s id = s)) := by
  refine ⟨rfl, ?_, List.filter_sublist s.documents, ?_, rfl, ?_⟩
  · intro d hd
    have := (List.mem_filter.mp hd).2
    simpa [bne_iff_ne] using this
  · intro d hd hne
    exact List.mem_filter.mpr ⟨hd, by simpa [bne_iff_ne] using hne⟩
  · intro habsent
    have hdocs : (deleteDocument s id).documents = s.documents :=
      List.filter_eq_self.mpr (fun d hd => by simpa [bne_iff_ne] using habsent d hd)
    refine ⟨hdocs, fun hinv => PageState.eq_of_fields _ _ hdocs ?_ rfl⟩
    calc (deleteDocument s id).filtered
        = applyFilters (deleteDocument s id).documents s.filters := rfl
      _ = applyFilters s.documents s.filters := by rw [hdocs]
      _ = s.filtered := hinv.symm

/-- Witness for C8: removing an id absent from the concrete state is a
no-op. -/
theorem remove_by_id_witness :
    (deleteDocument exState "no-such-id").documents
      = exState.documents.filter (fun d => d.id != "no-such-id")
    ∧ deleteDocument exState "no-such-id" = exState :=
  ⟨(remove_by_id exState "no-such-id").1,
   ((remove_by_id exState "no-such-id").2.2.2.2.2 (by decide)).2 (by decide)⟩

/-! ## Claims about the upload form -/

/-- Claim C6: when the analysis response is non-2xx (`!ok`) or its body is
unparseable, `onSubmit` surfaces an error message and the page state is
left untouched — no document is created; moreover a non-empty server
`error` field is surfaced verbatim. -/
theorem failed_analysis_unchanged (s : PageState) (resp : AnalyzeResponse)
    (t : Nat) (iso rand : String)
    (hfail : resp.ok = false ∨ ∃ m, resp.parse = Except.error m) :
    (∃ msg, onSubmitOutcome resp = Except.error msg
      ∧ processUpload s resp t iso rand = (s, msg))
    ∧ (∀ v e, resp.ok = false → resp.parse = Except.ok v → v.errorField = some e →
        e ≠ "" → onSubmitOutcome resp = Except.error e) := by
  obtain ⟨ok, status, parse⟩ := resp
  constructor
  · have hex : ∃ msg, onSubmitOutcome ⟨ok, status, parse⟩ = Except.error msg := by
      cases ok with
      | false =>
        cases parse with
        | error m => exact ⟨_, rfl⟩
        | ok v =>
          cases hv : v.errorField with
          | none => exact ⟨httpErrorMsg status, by simp [onSubmitOutcome, hv]⟩
          | some e =>
            by_cases he : e = ""
            · exact ⟨httpErrorMsg status, by simp [onSubmitOutcome, hv, he]⟩
            · exact ⟨e, by simp [onSubmitOutcome, hv, he]⟩
      | true =>
        cases parse with
        | error m => exact ⟨m, rfl⟩
        | ok v =>
          rcases hfail with hok | ⟨m, hm⟩
          · exact absurd hok (by simp)
          · exact absurd hm (by simp)
    obtain ⟨msg, hmsg⟩ := hex
    refine ⟨msg, hmsg, ?_⟩
    unfold processUpload
    rw [hmsg]
  · intro v e hok hp hv he
    simp only at hok hp
    subst hok hp
    simp [onSubmitOutcome, hv, he]

/-- Witness for C6: a 500 response whose body carries
`{error: "upstream boom"}` surfaces that message and leaves the concrete
state unchanged. -/
theorem failed_analysis_unchanged_witness :
    (∃ msg, onSubmitOutcome
        { ok := false, status := 500,
          parse := Except.ok { errorField := some "upstream boom", asAnalyzed := exAnalyzed } }
        = Except.error msg
      ∧ processUpload exState
          { ok := false, status := 500,
            parse := Except.ok { errorField := some "upstream boom", asAnalyzed := exAnalyzed } }
          5 "2026-01-03" "0.5" = (exState, msg))
    ∧ onSubmitOutcome
        { ok := false, status := 500,
          parse := Except.ok { errorField := some "upstream boom", asAnalyzed := exAnalyzed } }
        = Except.error "upstream boom" :=
  ⟨(failed_analysis_unchanged exState _ 5 "2026-01-03" "0.5" (Or.inl rfl)).1,
   (failed_analysis_unchanged exState _ 5 "2026-01-03" "0.5" (Or.inl rfl)).2
     _ "upstream boom" rfl rfl rfl (by decide)⟩

/-- Claim C7: a file strictly larger than `maxFileSize * 1024 * 1024`
bytes is rejected at selection time with the size error, no file is
retained, and a subsequent submit performs no network request (the
`fetch` is only reachable with a retained file). -/
theorem onFileChange_some (m : Nat) (f : FileMeta) :
    onFileChange m (some f) =
      if f.size > m * 1024 * 1024 then { file := none, error := sizeErrorMsg m }
      else { file := some f, error := "" } := rfl

theorem oversized_upload_no_request (m : Nat) (f : FileMeta)
    (h : f.size > m * 1024 * 1024) :
    onFileChange m (some f) = { file := none, error := sizeErrorMsg m }
    ∧ onSubmitAction (onFileChange m (some f))
        = SubmitAction.noRequest "Seleziona un file da caricare" := by
  have h1 : onFileChange m (some f) = { file := none, error := sizeErrorMsg m } := by
    rw [onFileChange_some, if_pos h]
  exact ⟨h1, by rw [h1]; rfl⟩

/-- Witness for C7: an 10485761-byte file against the default 10 MB limit. -/
theorem oversized_upload_no_request_witness :
    onFileChange 10 (some { name := "big.pdf", size := 10485761 })
      = { file := none, error := sizeErrorMsg 10 }
    ∧ onSubmitAction (onFileChange 10 (some { name := "big.pdf", size := 10485761 }))
        = SubmitAction.noRequest "Seleziona un file da caricare" :=
  oversized_upload_no_request 10 { name := "big.pdf", size := 10485761 } (by decide)

/-- Claim C10: the size limit is `maxFileSize * 1024 * 1024` (binary
megabytes) and the comparison is strict, so a file of exactly the limit
is accepted and only strictly larger files are rejected. -/
theorem size_limit_boundary (m : Nat) (f : FileMeta) :
    ((onFileChange m (some f)).file = some f ↔ f.size ≤ m * 1024 * 1024)
    ∧ (f.size = m * 1024 * 1024 →
        onFileChange m (some f) = { file := some f, error := "" }) := by
  constructor
  · rw [onFileChange_some]
    by_cases h : f.size > m * 1024 * 1024
    · rw [if_pos h]
      constructor
      · intro hc
        exact absurd hc (by simp)
      · intro hle
        omega
    · rw [if_neg h]
      constructor
      · intro _
        omega
      · intro _
        rfl
  · intro he
    rw [onFileChange_some, if_neg (by omega)]

/-- Witness for C10: a file of exactly 10 · 2²⁰ bytes is accepted under
the default 10 MB limit. -/
theorem size_limit_boundary_witness :
    ((onFileChange 10 (some { name := "doc.pdf", size := 10485760 })).file
        = some { name := "doc.pdf", size := 10485760 }
      ↔ (10485760 : Nat) ≤ 10 * 1024 * 1024)
    ∧ onFileChange 10 (some { name := "doc.pdf", size := 10485760 })
        = { file := some { name := "doc.pdf", size := 10485760 }, error := "" } :=
  ⟨(size_limit_boundary 10 { name := "doc.pdf", size := 10485760 }).1,
   (size_limit_boundary 10 { name := "doc.pdf", size := 10485760 }).2 (by decide)⟩

/-! ## Claim about the backend path validation -/

/-- Claim C9 (spec-modelled, `app.py` absent from the snapshot): a
path-based request that is absolute or whose `..` segments escape the
configured root fails with `InvalidInput` and performs no filesystem
read; conversely any read the service does perform is of a path inside
the root. -/
theorem path_outside_root_rejected (root : List String) (p : PathReq)
    (h : p.absolute = true ∨ normSegments [] p.segments = none) :
    analyzeFile root p = (Except.error AnalyzeError.invalidInput, [])
    ∧ ∀ q : PathReq, ∀ eff, eff ∈ (analyzeFile root q).2 →
        ∃ rel, eff = FsEffect.read (root ++ rel) := by
  constructor
  · have hres : resolveUnderRoot root p = none := by
      unfold resolveUnderRoot
      rcases h with ha | hn
      · simp [ha]
      · by_cases ha : p.absolute <;> simp [ha, hn]
    unfold analyzeFile
    rw [hres]
  · intro q eff heff
    unfold analyzeFile at heff
    cases hres : resolveUnderRoot root q with
    | none => rw [hres] at heff; cases heff
    | some full =>
      rw [hres] at heff
      have : eff = FsEffect.read full := by
        simpa using heff
      unfold resolveUnderRoot at hres
      by_cases ha : q.absolute
      · simp [ha] at hres
      · cases hn : normSegments [] q.segments with
        | none => simp [ha, hn] at hres
        | some rel =>
          refine ⟨rel, ?_⟩
          simp [ha, hn] at hres
          rw [this, hres]

/-- Witness for C9: `../etc/passwd` under root `data` is rejected with no
read performed. -/
theorem path_outside_root_rejected_witness :
    analyzeFile ["data"] { absolute := false, segments := ["..", "etc", "passwd"] }
      = (Except.error AnalyzeError.invalidInput, [])
    ∧ analyzeFile ["data"] { absolute := true, segments := ["etc", "passwd"] }
      = (Except.error AnalyzeError.invalidInput, []) :=
  ⟨(path_outside_root_rejected ["data"] _ (Or.inr (by decide))).1,
   (path_outside_root_rejected ["data"] _ (Or.inl rfl)).1⟩

end Documind
